import Mathlib

/-!
Verification of the Hexhaven campaign transformation pipeline.

The definitions below are a shallow embedding of the Python sources
`campaigns/load-campaigns.py` (engine-format converter) and
`campaigns/export_hex_maps.py` (pixel geometry).  Python dictionaries with
optional keys are embedded as structures with `Option` fields; `d.get(k, v)`
becomes `Option.getD`, a bare `d[k]` on a possibly-missing key becomes an
`Except` error carrying a `KeyError` message.  Python integer arithmetic is
`Int` (`//` is `Int.fdiv`, `&` is `Int.land`, both with Python's floor /
two's-complement semantics).  Float arithmetic in the pixel geometry is
modelled over the exact reals.
-/

/-- A hex tile as read by `convert_hex_map_to_layout`: the code accesses
`hex_tile['q']`, `hex_tile['r']` and `hex_tile['terrain']` unconditionally. -/
structure HexTile where
  q : Int
  r : Int
  terrain : String
deriving DecidableEq

/-- One entry of the emitted `mapLayout`. -/
structure LayoutCell where
  id : String
  x : Int
  y : Int
  terrain : String
  features : List String
deriving DecidableEq

/-- `hex_to_cartesian(q, r)` from `load-campaigns.py`:
`x = q`; `y = r + (q - (q & 1)) // 2` with Python floor division and
two's-complement bitwise and. -/
def hex_to_cartesian (q r : Int) : Int × Int :=
  (q, r + (q - Int.land q 1).fdiv 2)

/-- `convert_hex_map_to_layout(hexes)`: appends one record per input tile,
with `id = f'hex-{q}-{r}'` built from the original axial pair and the
cartesian coordinates from `hex_to_cartesian`. -/
def convert_hex_map_to_layout (hexes : List HexTile) : List LayoutCell :=
  hexes.map fun h =>
    { id := "hex-" ++ toString h.q ++ "-" ++ toString h.r
      x := (hex_to_cartesian h.q h.r).1
      y := (hex_to_cartesian h.q h.r).2
      terrain := if h.terrain = "obstacle" then "obstacle" else h.terrain
      features := [] }

/-- A starting position as read by `convert_starting_positions`
(`pos['q']`, `pos['r']` accessed unconditionally; the `player` key is
never read by the converter). -/
structure StartPos where
  q : Int
  r : Int
deriving DecidableEq

/-- `convert_starting_positions(positions)`. -/
def convert_starting_positions (positions : List StartPos) : List (Int × Int) :=
  positions.map fun p => hex_to_cartesian p.q p.r

/-- C4: `hex_to_cartesian` (the spec's `axial_to_offset`) maps `(q, r)` to
`(q, r + (q - (q & 1)) // 2)` with floor-division semantics, and the spot
checks at `(0,0)`, `(1,0)`, `(1,-1)`, `(2,0)` hold, as do checks at negative
odd columns. -/
theorem c4_hex_to_cartesian_formula (q r : Int) :
    hex_to_cartesian q r = (q, r + (q - Int.land q 1).fdiv 2) ∧
    hex_to_cartesian 0 0 = (0, 0) ∧
    hex_to_cartesian 1 0 = (1, 0) ∧
    hex_to_cartesian 1 (-1) = (1, -1) ∧
    hex_to_cartesian 2 0 = (2, 1) ∧
    hex_to_cartesian (-1) 0 = (-1, -1) ∧
    hex_to_cartesian (-3) 2 = (-3, 0) := by
  have hm1 : Int.land (-1) 1 = 1 := by
    show ((Nat.ldiff 1 0 : Nat) : Int) = 1
    norm_num [Nat.ldiff, Nat.bitwise]
  have hm3 : Int.land (-3) 1 = 1 := by
    show ((Nat.ldiff 1 2 : Nat) : Int) = 1
    norm_num [Nat.ldiff, Nat.bitwise]
  refine ⟨rfl, by decide, by decide, by decide, by decide, ?_, ?_⟩
  · show (-1, 0 + ((-1) - Int.land (-1) 1).fdiv 2) = (-1, -1)
    rw [hm1]; decide
  · show (-3, 2 + ((-3) - Int.land (-3) 1).fdiv 2) = (-3, 0)
    rw [hm3]; decide

/-- `HexMapExporter.axial_to_pixel(q, r, center_x, center_y)` from
`export_hex_maps.py`, with `self.hex_size` passed explicitly as `size`:
`x = size * (3/2 * q)`, `y = size * (sqrt(3)/2 * q + sqrt(3) * r)`,
returns `(center_x + x, center_y + y)`.  Python floats are modelled as
exact reals. -/
noncomputable def axial_to_pixel (q r center_x center_y size : ℝ) : ℝ × ℝ :=
  (center_x + size * (3 / 2 * q),
   center_y + size * (Real.sqrt 3 / 2 * q + Real.sqrt 3 * r))

/-- `HexMapExporter.get_hex_corners(x, y, size)` from `export_hex_maps.py`:
for `i` in `range(6)`, the corner is at angle `pi / 3 * i` and offset
`(size * cos(angle), size * sin(angle))` from the center.  Python floats
are modelled as exact reals. -/
noncomputable def get_hex_corners (x y size : ℝ) : List (ℝ × ℝ) :=
  (List.range 6).map fun (i : Nat) =>
    (x + size * Real.cos (Real.pi / 3 * (i : ℝ)),
     y + size * Real.sin (Real.pi / 3 * (i : ℝ)))

/-- C8: `axial_to_pixel(q, r, origin_x, origin_y, size)` equals
`(origin_x + size * 1.5 * q, origin_y + size * (sqrt 3 / 2 * q + sqrt 3 * r))`. -/
theorem c8_axial_to_pixel_formula (q r cx cy size : ℝ) :
    axial_to_pixel q r cx cy size =
      (cx + size * 1.5 * q, cy + size * (Real.sqrt 3 / 2 * q + Real.sqrt 3 * r)) := by
  unfold axial_to_pixel
  norm_num
  ring

/-- C9: `get_hex_corners(x, y, size)` returns exactly 6 points; the `i`-th
point (0-indexed, `i < 6`) lies at angle `i * 60°` (= `i * pi / 3` radians)
from the center and at Euclidean distance `size` from the center, so
consecutive points are separated by 60°. -/
theorem c9_hex_corners (x y size : ℝ) (h : 0 ≤ size) (i : Nat) (hi : i < 6) :
    (get_hex_corners x y size).length = 6 ∧
    (get_hex_corners x y size)[i]? =
      some (x + size * Real.cos (i * (Real.pi / 3)),
            y + size * Real.sin (i * (Real.pi / 3))) ∧
    Real.sqrt ((x + size * Real.cos (i * (Real.pi / 3)) - x) ^ 2 +
               (y + size * Real.sin (i * (Real.pi / 3)) - y) ^ 2) = size := by
  refine ⟨by rw [get_hex_corners, List.length_map, List.length_range], ?_, ?_⟩
  · rw [get_hex_corners, List.getElem?_map, List.getElem?_range hi]
    simp [mul_comm]
  · have hs : x + size * Real.cos (i * (Real.pi / 3)) - x = size * Real.cos (i * (Real.pi / 3)) := by ring
    have ht : y + size * Real.sin (i * (Real.pi / 3)) - y = size * Real.sin (i * (Real.pi / 3)) := by ring
    rw [hs, ht]
    have hc : (size * Real.cos (i * (Real.pi / 3))) ^ 2 +
        (size * Real.sin (i * (Real.pi / 3))) ^ 2 = size ^ 2 := by
      have := Real.sin_sq_add_cos_sq (i * (Real.pi / 3))
      nlinarith [this]
    rw [hc]
    exact Real.sqrt_sq h

/-- Witness for C9 at the concrete input `x = 0`, `y = 0`, `size = 1`, `i = 0`. -/
theorem c9_hex_corners_witness :
    (get_hex_corners 0 0 1).length = 6 ∧
    (get_hex_corners 0 0 1)[0]? =
      some (0 + 1 * Real.cos ((0 : Nat) * (Real.pi / 3)),
            0 + 1 * Real.sin ((0 : Nat) * (Real.pi / 3))) ∧
    Real.sqrt ((0 + 1 * Real.cos ((0 : Nat) * (Real.pi / 3)) - 0) ^ 2 +
               (0 + 1 * Real.sin ((0 : Nat) * (Real.pi / 3)) - 0) ^ 2) = 1 :=
  c9_hex_corners 0 0 1 zero_le_one 0 (by decide)

/-- A monster position entry: a Python dict with possibly-present keys
`q`, `r`, `x`, `y` (constructor `dict`), or a non-dict value
(constructor `nondict`), as tested by
`isinstance(pos, dict) and ('q' in pos and 'r' in pos)` /
`('x' in pos and 'y' in pos)` in `convert_monsters`. -/
inductive MPos where
  | dict (q r x y : Option Int)
  | nondict
deriving DecidableEq

/-- Branch taken by the `convert_monsters` position loop for one entry:
axial dicts go through `hex_to_cartesian`, cartesian dicts pass through,
and every other entry yields nothing (is dropped). -/
def convertMPos : MPos → Option (Int × Int)
  | .dict (some q) (some r) _ _ => some (hex_to_cartesian q r)
  | .dict _ _ (some x) (some y) => some (x, y)
  | _ => none

/-- A monster group as read by `convert_monsters`: every key is accessed
with `.get`, so all fields are optional. -/
structure GroupIn where
  type : Option String
  positions : Option (List MPos)
  elite : Option (List Bool)
  level : Option String
deriving DecidableEq

/-- A converted monster group.  `elite` is an `Option` because the
synthetic default group emitted for an empty input has no `elite` key at
all, while converted groups always carry one. -/
structure GroupOut where
  type : String
  positions : List (Int × Int)
  elite : Option (List Bool)
  level : String
deriving DecidableEq

/-- The position/elite loop of `convert_monsters`: iterates over the
input positions with index `i`, appending the converted position when the
entry matches a shape, and appending `elite_in[i]` whenever
`i < len(elite_in)` (modelled by consuming the head of the remaining
elite list at each step). -/
def monsterLoop : List MPos → List Bool → List (Int × Int) × List Bool
  | [], _ => ([], [])
  | p :: ps, es =>
    let rest := monsterLoop ps es.tail
    let pos :=
      match convertMPos p with
      | some xy => xy :: rest.1
      | none => rest.1
    let el :=
      match es with
      | [] => rest.2
      | b :: _ => b :: rest.2
    (pos, el)

/-- Conversion of one present monster group by `convert_monsters`:
defaults `type` to `'enemy-basic'` and `level` to `'normal'`, and replaces
an empty (falsy) elite list by `[False] * len(positions)`. -/
def convertGroup (g : GroupIn) : GroupOut :=
  let pe := monsterLoop (g.positions.getD []) (g.elite.getD [])
  { type := g.type.getD "enemy-basic"
    positions := pe.1
    elite := some (if pe.2.isEmpty then List.replicate pe.1.length false else pe.2)
    level := g.level.getD "normal" }

/-- `convert_monsters(monster_groups, starting_positions)`: an empty
(falsy) group list yields the synthetic default group; otherwise each
group is converted in order.  The `starting_positions` argument is never
read by the function body. -/
def convert_monsters (monster_groups : List GroupIn) (starting_positions : List StartPos) :
    List GroupOut :=
  if monster_groups.isEmpty then
    [{ type := "enemy-basic", positions := [(3, 2)], elite := none, level := "normal" }]
  else
    monster_groups.map convertGroup

/-- A nested treasure `position` value: a dict whose `q` and `r` keys are
read with bare indexing (`KeyError` when missing). -/
structure PosQR where
  q : Option Int
  r : Option Int
deriving DecidableEq

/-- A treasure as read by `convert_treasures`: `position` nested dict, or
flat `q` / `r` keys read with `.get(_, 0)`; `id` read with `.get`. -/
structure TreasureIn where
  position : Option PosQR
  q : Option Int
  r : Option Int
  id : Option String
deriving DecidableEq

/-- A converted treasure record. -/
structure TreasureOut where
  x : Int
  y : Int
  id : String
deriving DecidableEq

/-- Conversion of one treasure at input index `i` by `convert_treasures`:
`treasure['position']['q']` / `['r']` when a `position` key is present
(raising `KeyError` when the nested key is absent), else
`treasure.get('q', 0)` / `.get('r', 0)`; `id` defaults to
`f'treasure-{i}'`. -/
def convertTreasure (i : Nat) (t : TreasureIn) : Except String TreasureOut :=
  match t.position with
  | some p =>
    match p.q with
    | none => .error "KeyError: q"
    | some q =>
      match p.r with
      | none => .error "KeyError: r"
      | some r =>
        .ok { x := (hex_to_cartesian q r).1, y := (hex_to_cartesian q r).2
              id := t.id.getD ("treasure-" ++ toString i) }
  | none =>
    let q := t.q.getD 0
    let r := t.r.getD 0
    .ok { x := (hex_to_cartesian q r).1, y := (hex_to_cartesian q r).2
          id := t.id.getD ("treasure-" ++ toString i) }

/-- The enumerated loop of `convert_treasures`, propagating the first
`KeyError`. -/
def treasuresLoop : Nat → List TreasureIn → Except String (List TreasureOut)
  | _, [] => .ok []
  | i, t :: ts => do
    let o ← convertTreasure i t
    let rest ← treasuresLoop (i + 1) ts
    .ok (o :: rest)

/-- `convert_treasures(treasures)`: returns `[]` for a falsy input, else
runs the enumerated loop from index 0. -/
def convert_treasures (treasures : List TreasureIn) : Except String (List TreasureOut) :=
  if treasures.isEmpty then .ok [] else treasuresLoop 0 treasures

/-- An objective as read by `convert_objectives`: all keys accessed with
`.get`. -/
structure ObjIn where
  id : Option String
  type : Option String
  description : Option String
deriving DecidableEq

/-- The synthetic primary objective record. -/
structure PrimaryObj where
  id : String
  type : String
  description : String
  trackProgress : Bool
  milestones : List Nat
deriving DecidableEq

/-- A converted secondary objective (`rewards = {'experience': 5}` is
modelled by its single field). -/
structure SecondaryObj where
  id : String
  type : String
  description : String
  trackProgress : Bool
  rewardExperience : Nat
deriving DecidableEq

/-- The fixed `type_map` lookup of `convert_objectives`. -/
def type_map (s : String) : Option String :=
  if s = "collect-items" then some "collect_treasure"
  else if s = "protect-allies" then some "protect"
  else if s = "reach-location" then some "reach_location"
  else none

/-- Conversion of one secondary objective at input index `i`. -/
def convertObjective (i : Nat) (o : ObjIn) : SecondaryObj :=
  let obj_type := o.type.getD "collect_treasure"
  { id := o.id.getD ("secondary-" ++ toString i)
    type := (type_map obj_type).getD "collect_treasure"
    description := o.description.getD "Complete objective"
    trackProgress := true
    rewardExperience := 5 }

/-- The enumerated secondary-objective loop of `convert_objectives`. -/
def objLoop : Nat → List ObjIn → List SecondaryObj
  | _, [] => []
  | i, o :: os => convertObjective i o :: objLoop (i + 1) os

/-- The output of `convert_objectives`. -/
structure ObjectivesOut where
  primary : PrimaryObj
  secondary : List SecondaryObj
deriving DecidableEq

/-- `convert_objectives(objectives_list)`: the fixed primary objective and
the mapped secondary objectives (`objectives_list or []` turns a missing
list into an empty one). -/
def convert_objectives (objectives_list : Option (List ObjIn)) : ObjectivesOut :=
  { primary :=
      { id := "primary-kill-all"
        type := "kill_all_monsters"
        description := "Defeat all enemies"
        trackProgress := true
        milestones := [25, 50, 75, 100] }
    secondary := objLoop 0 (objectives_list.getD []) }

/-- A background dict, every key read with `.get`. -/
structure BackgroundIn where
  image : Option String
  opacity : Option ℚ
  offsetX : Option Int
  offsetY : Option Int
  scale : Option ℚ
deriving DecidableEq

/-- A raw scenario as read by `convert_scenario`: `name`, `difficulty`,
`mapHexes` and `startingPositions` are accessed with bare indexing
(`KeyError` when absent), the rest with `.get`. -/
structure ScenarioIn where
  name : Option String
  difficulty : Option Int
  mapHexes : Option (List HexTile)
  startingPositions : Option (List StartPos)
  monsterGroups : Option (List GroupIn)
  objectives : Option (List ObjIn)
  treasures : Option (List TreasureIn)
  background : Option BackgroundIn
deriving DecidableEq

/-- The engine record emitted by `convert_scenario`.  Background opacity
and scale (Python floats `0.7` / `1`) are modelled as rationals. -/
structure EngineRecord where
  name : String
  difficulty : Int
  mapLayout : List LayoutCell
  playerStartPositions : List (Int × Int)
  monsterGroups : List GroupOut
  objectives : ObjectivesOut
  treasures : List TreasureOut
  backgroundImageUrl : Option String
  backgroundOpacity : ℚ
  backgroundOffsetX : Int
  backgroundOffsetY : Int
  backgroundScale : ℚ
deriving DecidableEq

/-- `convert_scenario(scenario)`: the required keys are demanded in the
evaluation order of the Python dict literal (`name`, `difficulty`,
`mapHexes`, `startingPositions`), then the treasure conversion may raise
its own `KeyError`; everything else uses defaults. -/
def convert_scenario (s : ScenarioIn) : Except String EngineRecord :=
  match s.name with
  | none => .error "KeyError: name"
  | some name =>
  match s.difficulty with
  | none => .error "KeyError: difficulty"
  | some difficulty =>
  match s.mapHexes with
  | none => .error "KeyError: mapHexes"
  | some hexes =>
  match s.startingPositions with
  | none => .error "KeyError: startingPositions"
  | some sp =>
  match convert_treasures (s.treasures.getD []) with
  | .error e => .error e
  | .ok ts =>
    .ok
      { name := name
        difficulty := difficulty
        mapLayout := convert_hex_map_to_layout hexes
        playerStartPositions := convert_starting_positions sp
        monsterGroups := convert_monsters (s.monsterGroups.getD []) sp
        objectives := convert_objectives s.objectives
        treasures := ts
        backgroundImageUrl := (s.background.map (·.image)).getD none
        backgroundOpacity := ((s.background.map (·.opacity)).getD none).getD (7 / 10)
        backgroundOffsetX := ((s.background.map (·.offsetX)).getD none).getD 0
        backgroundOffsetY := ((s.background.map (·.offsetY)).getD none).getD 0
        backgroundScale := ((s.background.map (·.scale)).getD none).getD 1 }

/-- Reading an emitted engine record back through the raw-scenario dict
accessors of `convert_scenario`: the record's keys are `name`,
`difficulty`, `mapLayout`, `playerStartPositions`, `monsterGroups`,
`objectives`, `treasures` and the background scalars, so the required
keys `mapHexes` and `startingPositions` are absent.  Emitted monster
positions are `{x, y}` dicts and emitted treasures are flat
`{x, y, id}` dicts with no coordinates readable by `convert_treasures`.
The `objectives` value of a record is a dict rather than a list and has
no counterpart among the raw-scenario shapes; it is modelled as absent
(the re-run fails on `mapHexes` before ever reading it). -/
def engineToScenarioIn (r : EngineRecord) : ScenarioIn :=
  { name := some r.name
    difficulty := some r.difficulty
    mapHexes := none
    startingPositions := none
    monsterGroups := some (r.monsterGroups.map fun g =>
      { type := some g.type
        positions := some (g.positions.map fun p => MPos.dict none none (some p.1) (some p.2))
        elite := g.elite
        level := some g.level })
    objectives := none
    treasures := some (r.treasures.map fun t =>
      { position := none, q := none, r := none, id := some t.id })
    background := none }

/-- The position component of the `convert_monsters` loop keeps exactly
the entries that match one of the two recognized shapes, in order. -/
theorem monsterLoop_fst (ps : List MPos) (es : List Bool) :
    (monsterLoop ps es).1 = ps.filterMap convertMPos := by
  induction ps generalizing es with
  | nil => rfl
  | cons p ps ih =>
    simp only [monsterLoop]
    cases hc : convertMPos p <;> simp [List.filterMap_cons, hc, ih]

/-- The elite component of the `convert_monsters` loop is the input elite
list truncated to the number of input positions. -/
theorem monsterLoop_snd (ps : List MPos) (es : List Bool) :
    (monsterLoop ps es).2 = es.take ps.length := by
  induction ps generalizing es with
  | nil => simp [monsterLoop]
  | cons p ps ih =>
    cases es with
    | nil => simp [monsterLoop, ih]
    | cons b bs => simp [monsterLoop, ih]

/-- Indexing the enumerated secondary-objective loop. -/
theorem objLoop_getElem? (os : List ObjIn) (k i : Nat) :
    (objLoop k os)[i]? = (os[i]?).map fun o => convertObjective (k + i) o := by
  induction os generalizing k i with
  | nil => simp [objLoop]
  | cons o os ih =>
    cases i with
    | zero => simp [objLoop]
    | succ n =>
      have harith : k + 1 + n = k + (n + 1) := by omega
      calc (objLoop k (o :: os))[n + 1]?
          = (objLoop (k + 1) os)[n]? := by simp [objLoop]
        _ = (os[n]?).map (fun o2 => convertObjective (k + 1 + n) o2) := ih (k + 1) n
        _ = ((o :: os)[n + 1]?).map (fun o2 => convertObjective (k + (n + 1)) o2) := by
            rw [harith]; simp

/-- A scenario whose map contains the cell `(0, 0)` twice with different
terrains: the emitted `mapLayout` retains both entries, with the same id
`hex-0-0` and their respective terrains. -/
def dupScenario : ScenarioIn :=
  { name := some "Dup"
    difficulty := some 1
    mapHexes := some [⟨0, 0, "normal"⟩, ⟨0, 0, "difficult"⟩]
    startingPositions := some []
    monsterGroups := none
    objectives := none
    treasures := none
    background := none }

/-- C1 counterexample: transforming a scenario with two cells sharing
`(q, r) = (0, 0)` yields a `mapLayout` with TWO entries, both with id
`hex-0-0` (one per input cell, keeping each cell's own terrain) — not
exactly one entry, and two entries share an id. -/
theorem c1_duplicate_cells_counterexample :
    (convert_scenario dupScenario).toOption.map
        (fun r => (r.mapLayout.map LayoutCell.id, r.mapLayout.map LayoutCell.terrain)) =
      some (["hex-0-0", "hex-0-0"], ["normal", "difficult"]) := by
  rfl

/-- C1 (amended): `convert_hex_map_to_layout` emits exactly one entry per
input cell, in order; entry `i` has id `hex-{q}-{r}` built from cell `i`'s
axial pair and carries cell `i`'s terrain.  Duplicate `(q, r)` cells are
therefore both retained and their ids collide; no deduplication happens
in the engine transform. -/
theorem c1_mapLayout_per_cell (hexes : List HexTile) (i : Nat) (hi : i < hexes.length) :
    (convert_hex_map_to_layout hexes).length = hexes.length ∧
    (convert_hex_map_to_layout hexes)[i]? =
      some { id := "hex-" ++ toString hexes[i].q ++ "-" ++ toString hexes[i].r
             x := (hex_to_cartesian hexes[i].q hexes[i].r).1
             y := (hex_to_cartesian hexes[i].q hexes[i].r).2
             terrain := if hexes[i].terrain = "obstacle" then "obstacle" else hexes[i].terrain
             features := [] } := by
  constructor
  · simp [convert_hex_map_to_layout]
  · rw [convert_hex_map_to_layout, List.getElem?_map, List.getElem?_eq_getElem hi]
    rfl

/-- Witness for C1 (amended) at the one-cell map `[(2, -1, obstacle)]`,
index 0. -/
theorem c1_mapLayout_per_cell_witness :
    (convert_hex_map_to_layout [⟨2, -1, "obstacle"⟩]).length = 1 ∧
    (convert_hex_map_to_layout [⟨2, -1, "obstacle"⟩])[0]? =
      some { id := "hex-" ++ toString (2 : Int) ++ "-" ++ toString (-1 : Int)
             x := (hex_to_cartesian 2 (-1)).1
             y := (hex_to_cartesian 2 (-1)).2
             terrain := if "obstacle" = "obstacle" then "obstacle" else "obstacle"
             features := [] } :=
  c1_mapLayout_per_cell [⟨2, -1, "obstacle"⟩] 0 (by decide)

/-- A monster group with two axial positions but a one-entry elite list. -/
def shortEliteGroup : GroupIn :=
  { type := none
    positions := some [MPos.dict (some 0) (some 0) none none,
                       MPos.dict (some 1) (some 0) none none]
    elite := some [true]
    level := none }

/-- C2 counterexample: converting a group whose elite list `[true]` is
shorter than its two positions yields two converted positions but an
elite list still of length 1 — no padding to the positions length. -/
theorem c2_short_elite_counterexample :
    (convert_monsters [shortEliteGroup] []).map (fun g => (g.positions.length, g.elite)) =
      [(2, some [true])] := by
  decide

/-- C2 (amended): after conversion the elite sequence is the input elite
sequence truncated to the number of input positions; only when that
truncation is empty (elite empty, or no positions) is it replaced by
`false`-padding of the converted positions' length.  A nonempty elite
sequence shorter than the positions is therefore NOT padded. -/
theorem c2_elite_truncation (g : GroupIn) :
    (convertGroup g).elite =
      some (if ((g.elite.getD []).take (g.positions.getD []).length).isEmpty
            then List.replicate (convertGroup g).positions.length false
            else (g.elite.getD []).take (g.positions.getD []).length) := by
  have h2 := monsterLoop_snd (g.positions.getD []) (g.elite.getD [])
  show some (if (monsterLoop (g.positions.getD []) (g.elite.getD [])).2.isEmpty
             then List.replicate (monsterLoop (g.positions.getD []) (g.elite.getD [])).1.length false
             else (monsterLoop (g.positions.getD []) (g.elite.getD [])).2) =
       some (if ((g.elite.getD []).take (g.positions.getD []).length).isEmpty
             then List.replicate (monsterLoop (g.positions.getD []) (g.elite.getD [])).1.length false
             else (g.elite.getD []).take (g.positions.getD []).length)
  rw [h2]

/-- A small well-formed scenario used to exercise the full pipeline. -/
def sampleScenario : ScenarioIn :=
  { name := some "Sample"
    difficulty := some 1
    mapHexes := some [⟨0, 0, "normal"⟩]
    startingPositions := some [⟨0, 0⟩]
    monsterGroups := none
    objectives := none
    treasures := none
    background := none }

/-- C3 counterexample: `convert_scenario` succeeds on a well-formed
scenario, but feeding the produced engine record back into
`convert_scenario` raises (`KeyError` on the absent `mapHexes` key) —
the pipeline is not crash-free on already-transformed data. -/
theorem c3_refeed_counterexample :
    (convert_scenario sampleScenario).isOk = true ∧
    (convert_scenario sampleScenario).toOption.map
        (fun r => convert_scenario (engineToScenarioIn r)) =
      some (.error "KeyError: mapHexes") := by
  exact ⟨rfl, rfl⟩

/-- C3 (amended): re-feeding ANY emitted engine record into
`convert_scenario` fails deterministically with `KeyError` on
`mapHexes` (the record stores its layout under `mapLayout`), rather than
completing without raising. -/
theorem c3_refeed_always_keyerror (r : EngineRecord) :
    convert_scenario (engineToScenarioIn r) = .error "KeyError: mapHexes" := rfl

/-- A scenario whose only treasure has a nested `position` dict lacking
the `q` key. -/
def badTreasureScenario : ScenarioIn :=
  { name := some "Bad"
    difficulty := some 1
    mapHexes := some [⟨0, 0, "normal"⟩]
    startingPositions := some []
    monsterGroups := none
    objectives := none
    treasures := some [{ position := some { q := none, r := none }, q := none, r := none,
                         id := none }]
    background := none }

/-- C5 counterexample: a treasure whose `position` dict lacks `q` makes
the whole transform raise `KeyError` — the transform is not raise-free on
data-shape irregularities, and the malformed treasure is not silently
dropped. -/
theorem c5_treasure_keyerror_counterexample :
    convert_scenario badTreasureScenario = .error "KeyError: q" := rfl

/-- C5 (amended): monster-position records matching neither the `{q, r}`
nor the `{x, y}` shape are silently dropped (the converted positions are
exactly the recognized entries, in order) and monster conversion is
total; treasures, by contrast, are never dropped — a treasure with
neither shape is emitted at the default coordinates `(0, 0)`, and a
treasure whose nested `position` dict lacks `q` raises `KeyError`. -/
theorem c5_drop_policy (g : GroupIn) (idOpt : Option String) :
    (convertGroup g).positions = (g.positions.getD []).filterMap convertMPos ∧
    convert_treasures [{ position := none, q := none, r := none, id := idOpt }] =
      .ok [{ x := 0, y := 0, id := idOpt.getD "treasure-0" }] ∧
    convert_treasures [{ position := some { q := none, r := none }, q := none, r := none,
                         id := idOpt }] =
      .error "KeyError: q" := by
  refine ⟨?_, rfl, rfl⟩
  show (monsterLoop (g.positions.getD []) (g.elite.getD [])).1 = _
  exact monsterLoop_fst _ _

/-- C6: a scenario whose `monsterGroups` is empty or absent transforms
into an engine record with exactly one monster group, the synthetic
default, which has exactly one position and level `normal`. -/
theorem c6_default_monster_group (s : ScenarioIn) (r : EngineRecord)
    (hmg : s.monsterGroups.getD [] = [])
    (hok : convert_scenario s = .ok r) :
    r.monsterGroups =
      [{ type := "enemy-basic", positions := [(3, 2)], elite := none, level := "normal" }] := by
  rw [convert_scenario] at hok
  cases hname : s.name <;> rw [hname] at hok
  case none => exact Except.noConfusion hok
  case some name =>
  cases hdiff : s.difficulty <;> rw [hdiff] at hok
  case none => exact Except.noConfusion hok
  case some difficulty =>
  cases hhex : s.mapHexes <;> rw [hhex] at hok
  case none => exact Except.noConfusion hok
  case some hexes =>
  cases hsp : s.startingPositions <;> rw [hsp] at hok
  case none => exact Except.noConfusion hok
  case some sp =>
  cases hts : convert_treasures (s.treasures.getD []) <;> rw [hts] at hok
  case error e => exact Except.noConfusion hok
  case ok ts =>
  have hrec := (Except.ok.inj hok).symm
  rw [hrec]
  show convert_monsters (s.monsterGroups.getD []) sp = _
  rw [hmg]
  rfl

/-- A well-formed scenario with no monster groups. -/
def emptyMonstersScenario : ScenarioIn :=
  { name := some "Empty"
    difficulty := some 2
    mapHexes := some []
    startingPositions := some []
    monsterGroups := none
    objectives := none
    treasures := none
    background := none }

/-- The engine record `convert_scenario` produces for
`emptyMonstersScenario`. -/
def emptyMonstersRecord : EngineRecord :=
  { name := "Empty"
    difficulty := 2
    mapLayout := []
    playerStartPositions := []
    monsterGroups := [{ type := "enemy-basic", positions := [(3, 2)], elite := none,
                        level := "normal" }]
    objectives :=
      { primary :=
          { id := "primary-kill-all"
            type := "kill_all_monsters"
            description := "Defeat all enemies"
            trackProgress := true
            milestones := [25, 50, 75, 100] }
        secondary := [] }
    treasures := []
    backgroundImageUrl := none
    backgroundOpacity := 7 / 10
    backgroundOffsetX := 0
    backgroundOffsetY := 0
    backgroundScale := 1 }

/-- Witness for C6 at a concrete scenario with absent `monsterGroups`. -/
theorem c6_default_monster_group_witness :
    emptyMonstersRecord.monsterGroups =
      [{ type := "enemy-basic", positions := [(3, 2)], elite := none, level := "normal" }] :=
  c6_default_monster_group emptyMonstersScenario emptyMonstersRecord rfl rfl

/-- C7: the transformed objectives always contain the one fixed primary
kill-all-monsters objective with milestones `[25, 50, 75, 100]`,
whatever the input; and a secondary objective whose input type is
unknown to the lookup table is emitted with type `collect_treasure`
instead of failing. -/
theorem c7_objectives (objs : Option (List ObjIn)) (i : Nat) (o : ObjIn)
    (ho : (objs.getD [])[i]? = some o)
    (hunknown : type_map (o.type.getD "collect_treasure") = none) :
    (convert_objectives objs).primary =
      { id := "primary-kill-all"
        type := "kill_all_monsters"
        description := "Defeat all enemies"
        trackProgress := true
        milestones := [25, 50, 75, 100] } ∧
    ((convert_objectives objs).secondary)[i]?.map SecondaryObj.type =
      some "collect_treasure" := by
  refine ⟨rfl, ?_⟩
  show (objLoop 0 (objs.getD []))[i]?.map SecondaryObj.type = _
  rw [objLoop_getElem?, ho]
  simp [convertObjective, hunknown]

/-- Witness for C7 at the one-objective list with unknown type
`mystery-type`, index 0. -/
theorem c7_objectives_witness :
    (convert_objectives (some [{ id := none, type := some "mystery-type",
                                 description := none }])).primary =
      { id := "primary-kill-all"
        type := "kill_all_monsters"
        description := "Defeat all enemies"
        trackProgress := true
        milestones := [25, 50, 75, 100] } ∧
    ((convert_objectives (some [{ id := none, type := some "mystery-type",
                                  description := none }])).secondary)[0]?.map SecondaryObj.type =
      some "collect_treasure" :=
  c7_objectives (some [{ id := none, type := some "mystery-type", description := none }]) 0
    { id := none, type := some "mystery-type", description := none } rfl rfl

/-- C10: the synthetic default group emitted for an empty group list has
no `elite` key at all (modelled as `none`), while every group converted
from a present input group carries an `elite` key (`isSome`): the output
shape is not uniform across the two paths. -/
theorem c10_elite_key_presence (sp : List StartPos) (g0 : GroupIn) (gs : List GroupIn) :
    (convert_monsters [] sp).map GroupOut.elite = [none] ∧
    ((convert_monsters (g0 :: gs) sp).all fun g => g.elite.isSome) = true := by
  refine ⟨rfl, ?_⟩
  show ((g0 :: gs).map convertGroup).all (fun g => g.elite.isSome) = true
  rw [List.all_eq_true]
  intro g hg
  rcases List.mem_map.mp hg with ⟨g1, _, hgeq⟩
  rw [← hgeq]
  rfl
